import Mathlib

/-!
Shallow embedding of the real-time message routing and presence layer of the
realtime-chat-app repository (the Socket.IO handler module: `userSockets` map,
connection/disconnect lifecycle, `send_direct_message`, `send_group_message`,
`typing_direct`, `typing_group` handlers).

Each handler is embedded as a pure function from its inputs (the socket's bound
identity, the current `userSockets` registry, a database behaviour oracle, and
the event payload) to the list of actions it performs, in program order:
database inserts, status writes, per-socket event emissions, broadcasts, and
logged-and-swallowed errors.  JavaScript payload values are modelled by `JVal`
with JavaScript truthiness; the `userSockets` `Map` is modelled by an
association list with `Map.set` / `Map.get` / `Map.delete` semantics.
Wall-clock timestamps (`sentAt`) are outside the model; message records carry
the remaining fields.
-/

namespace Chat

/-- JavaScript value as it appears in event payloads: `undef` models a missing
field after destructuring, and the other constructors cover the payload types
the handlers touch. -/
inductive JVal where
  | undef : JVal
  | null : JVal
  | num : Int → JVal
  | str : String → JVal
  | boolean : Bool → JVal
deriving DecidableEq

/-- JavaScript truthiness, as tested by `!receiverId`, `!messageText`,
`!groupId` in the handlers: `undefined`, `null`, `0`, `""` and `false` are
falsy, everything else modelled here is truthy. -/
def JVal.truthy : JVal → Bool
  | .undef => false
  | .null => false
  | .num n => n ≠ 0
  | .str s => s ≠ ""
  | .boolean b => b

/-- The identity Socket.IO binds to a connection: the socket id (`socket.id`,
an opaque handle) plus the `{userId, username}` decoded from the JWT and stored
as `socket.userId` / `socket.username`. -/
structure Socket where
  id : Nat
  userId : JVal
  username : String
deriving DecidableEq

/-- The `userSockets` map (`userId → socketId`), as an association list with
JavaScript `Map` semantics: keys are unique, `set` overwrites in place. -/
abbrev Registry := List (JVal × Nat)

/-- JavaScript `Map.prototype.set`: overwrite the entry for the key if present
(keeping its position), otherwise append. -/
def mapSet : Registry → JVal → Nat → Registry
  | [], k, v => [(k, v)]
  | (k', v') :: rest, k, v =>
      if k' = k then (k, v) :: rest else (k', v') :: mapSet rest k v

/-- JavaScript `Map.prototype.get`, returning `none` for a missing key. -/
def mapGet : Registry → JVal → Option Nat
  | [], _ => none
  | (k', v') :: rest, k => if k' = k then some v' else mapGet rest k

/-- JavaScript `Map.prototype.delete`: remove the entry for the key. -/
def mapDelete : Registry → JVal → Registry
  | [], _ => []
  | (k', v') :: rest, k =>
      if k' = k then rest else (k', v') :: mapDelete rest k

/-- `userSockets.set(socket.userId, socket.id)` — the registry `register`
operation performed on connection. -/
def register (reg : Registry) (userId : JVal) (handle : Nat) : Registry :=
  mapSet reg userId handle

/-- `userSockets.get(userId)` — the registry `lookup` operation. -/
def lookup (reg : Registry) (userId : JVal) : Option Nat :=
  mapGet reg userId

/-- Row of a direct message as inserted into `DirectMessages` and echoed in the
`messageData` object (timestamp omitted from the model). -/
structure DirectMsgData where
  messageId : Nat
  senderId : JVal
  senderUsername : String
  receiverId : JVal
  messageText : JVal
  isRead : Bool
deriving DecidableEq

/-- Row of a group message as inserted into `GroupMessages` and echoed in the
`messageData` object (timestamp omitted from the model). -/
structure GroupMsgData where
  messageId : Nat
  groupId : JVal
  senderId : JVal
  senderUsername : String
  messageText : JVal
deriving DecidableEq

/-- Outbound Socket.IO events emitted by the handlers. -/
inductive OutEvent where
  | receiveDirectMessage : DirectMsgData → OutEvent
  | messageSent : DirectMsgData → OutEvent
  | receiveGroupMessage : GroupMsgData → OutEvent
  | userStatusChange : JVal → String → Bool → OutEvent
  | userTypingDirect : JVal → String → JVal → OutEvent
  | userTypingGroup : JVal → JVal → String → JVal → OutEvent
  | errorEvent : String → OutEvent
deriving DecidableEq

/-- One observable step of a handler, recorded in program order: a successful
database insert, a successful online-status write, a logged-and-swallowed
error, an emission to one socket (`io.to(sid).emit` / `socket.emit`), or a
broadcast to every connected client (`io.emit`). -/
inductive Action where
  | insertDirect : JVal → JVal → JVal → Action
  | insertGroup : JVal → JVal → JVal → Action
  | setOnlineStatus : JVal → Bool → Action
  | logged : String → Action
  | emit : Nat → OutEvent → Action
  | broadcast : OutEvent → Action
deriving DecidableEq

/-- Behaviour oracle for the database: the `GroupMembers` rows
(`(group_id, user_id)` pairs) and, for each query site in the handler module,
whether that call throws. -/
structure Db where
  groupRows : List (JVal × JVal)
  insertDirectFails : Bool
  insertGroupFails : Bool
  memberCheckFails : Bool
  membersQueryFails : Bool
  typingMembersFails : Bool
  statusWriteFails : Bool
  nextInsertId : Nat
deriving DecidableEq

/-- Result rows of
`SELECT membership_id FROM GroupMembers WHERE group_id = ? AND user_id = ?`. -/
def memberRows (db : Db) (groupId userId : JVal) : List (JVal × JVal) :=
  db.groupRows.filter (fun r => decide (r.1 = groupId) && decide (r.2 = userId))

/-- Result of `SELECT user_id FROM GroupMembers WHERE group_id = ?` — all
member `user_id`s of the group, sender included. -/
def membersOf (db : Db) (groupId : JVal) : List JVal :=
  (db.groupRows.filter (fun r => decide (r.1 = groupId))).map (·.2)

/-- Result of
`SELECT user_id FROM GroupMembers WHERE group_id = ? AND user_id != ?` — the
group members excluding the sender, used by the `typing_group` handler. -/
def typingMembers (db : Db) (groupId senderId : JVal) : List JVal :=
  (db.groupRows.filter
    (fun r => decide (r.1 = groupId) && !decide (r.2 = senderId))).map (·.2)

/-- The `members.forEach` fan-out loop: for each listed userId with a
registered socket, emit the given event to that socket. -/
def fanOut (reg : Registry) (ev : OutEvent) (l : List JVal) : List Action :=
  l.filterMap (fun u => (mapGet reg u).map (fun sid => Action.emit sid ev))

/-- Payload of `send_direct_message`: `{ receiverId, messageText }`. -/
structure DirectPayload where
  receiverId : JVal
  messageText : JVal
deriving DecidableEq

/-- Payload of `send_group_message`: `{ groupId, messageText }`. -/
structure GroupPayload where
  groupId : JVal
  messageText : JVal
deriving DecidableEq

/-- Payload of `typing_direct`: `{ receiverId, isTyping }`. -/
structure TypingDirectPayload where
  receiverId : JVal
  isTyping : JVal
deriving DecidableEq

/-- Payload of `typing_group`: `{ groupId, isTyping }`. -/
structure TypingGroupPayload where
  groupId : JVal
  isTyping : JVal
deriving DecidableEq

/-- The `send_direct_message` handler: validate truthiness of `receiverId` and
`messageText`, insert into `DirectMessages` (a throw is caught and reported as
a `Failed to send message` error), deliver to the receiver's socket if
registered, then confirm to the sender with `message_sent`. -/
def sendDirectMessage (db : Db) (sock : Socket) (reg : Registry)
    (data : DirectPayload) : List Action :=
  if !data.receiverId.truthy || !data.messageText.truthy then
    [.emit sock.id (.errorEvent "Invalid message data")]
  else if db.insertDirectFails then
    [.logged "Error sending direct message",
     .emit sock.id (.errorEvent "Failed to send message")]
  else
    let messageData : DirectMsgData :=
      { messageId := db.nextInsertId
        senderId := sock.userId
        senderUsername := sock.username
        receiverId := data.receiverId
        messageText := data.messageText
        isRead := false }
    Action.insertDirect sock.userId data.receiverId data.messageText ::
      ((match mapGet reg data.receiverId with
        | some rsid => [Action.emit rsid (.receiveDirectMessage messageData)]
        | none => []) ++
       [Action.emit sock.id (.messageSent messageData)])

/-- The `send_group_message` handler: validate truthiness of `groupId` and
`messageText`, check membership (throw caught as `Failed to send message`,
empty result rejected as `You are not a member of this group`), insert into
`GroupMessages`, enumerate the members afresh, and fan the message out to every
member with a registered socket. -/
def sendGroupMessage (db : Db) (sock : Socket) (reg : Registry)
    (data : GroupPayload) : List Action :=
  if !data.groupId.truthy || !data.messageText.truthy then
    [.emit sock.id (.errorEvent "Invalid message data")]
  else if db.memberCheckFails then
    [.logged "Error sending group message",
     .emit sock.id (.errorEvent "Failed to send message")]
  else if (memberRows db data.groupId sock.userId).length = 0 then
    [.emit sock.id (.errorEvent "You are not a member of this group")]
  else if db.insertGroupFails then
    [.logged "Error sending group message",
     .emit sock.id (.errorEvent "Failed to send message")]
  else if db.membersQueryFails then
    [.insertGroup data.groupId sock.userId data.messageText,
     .logged "Error sending group message",
     .emit sock.id (.errorEvent "Failed to send message")]
  else
    let messageData : GroupMsgData :=
      { messageId := db.nextInsertId
        groupId := data.groupId
        senderId := sock.userId
        senderUsername := sock.username
        messageText := data.messageText }
    Action.insertGroup data.groupId sock.userId data.messageText ::
      fanOut reg (.receiveGroupMessage messageData) (membersOf db data.groupId)

/-- The `typing_direct` handler: if the receiver has a registered socket,
relay `user_typing_direct` to it; otherwise do nothing. -/
def typingDirect (sock : Socket) (reg : Registry)
    (data : TypingDirectPayload) : List Action :=
  match mapGet reg data.receiverId with
  | some rsid =>
      [Action.emit rsid
        (.userTypingDirect sock.userId sock.username data.isTyping)]
  | none => []

/-- The `typing_group` handler: enumerate group members excluding the sender (a
query throw is caught and only logged) and relay `user_typing_group` to each
member with a registered socket. -/
def typingGroup (db : Db) (sock : Socket) (reg : Registry)
    (data : TypingGroupPayload) : List Action :=
  if db.typingMembersFails then
    [.logged "Error handling typing indicator"]
  else
    fanOut reg
      (.userTypingGroup data.groupId sock.userId sock.username data.isTyping)
      (typingMembers db data.groupId sock.userId)

/-- The connection handler body: store the socket in `userSockets`, attempt the
online-status database write (a throw is caught and logged), then broadcast
`user_status_change { isOnline: true }` to all connected clients. -/
def onConnection (db : Db) (sock : Socket) (reg : Registry) :
    Registry × List Action :=
  (register reg sock.userId sock.id,
    (if db.statusWriteFails then [Action.logged "Error updating online status"]
     else [Action.setOnlineStatus sock.userId true]) ++
    [Action.broadcast (.userStatusChange sock.userId sock.username true)])

/-- The disconnect handler: `userSockets.delete(socket.userId)` — the entry for
the user is removed unconditionally, whichever socket disconnects — then the
offline-status write attempt (throw caught and logged) and the
`user_status_change { isOnline: false }` broadcast. -/
def onDisconnect (db : Db) (sock : Socket) (reg : Registry) :
    Registry × List Action :=
  (mapDelete reg sock.userId,
    (if db.statusWriteFails then [Action.logged "Error updating offline status"]
     else [Action.setOnlineStatus sock.userId false]) ++
    [Action.broadcast (.userStatusChange sock.userId sock.username false)])

/-- Modelled from the spec: the guarded `deregister(userId, handle)` operation
the specification describes for the Connection Registry — a no-op when `handle`
is not the currently registered one for `userId`.  The repository's disconnect
handler has no such guard; this definition exists only to be compared with
`onDisconnect`. -/
def deregisterSpec (reg : Registry) (userId : JVal) (handle : Nat) : Registry :=
  if mapGet reg userId = some handle then mapDelete reg userId else reg

/-- Keys of the registry: the userIds that currently have an entry. -/
abbrev regKeys (reg : Registry) : List JVal := reg.map Prod.fst

/-- Handles (socket ids) currently stored in the registry. -/
abbrev regHandles (reg : Registry) : List Nat := reg.map Prod.snd

/-- Predicate: the action is a successful message insert (direct or group). -/
def Action.isInsert : Action → Bool
  | .insertDirect _ _ _ => true
  | .insertGroup _ _ _ => true
  | _ => false

/-- Predicate: the action delivers a chat message to some socket — a
`receive_direct_message` or `receive_group_message` emission. -/
def Action.isRcv : Action → Bool
  | .emit _ (.receiveDirectMessage _) => true
  | .emit _ (.receiveGroupMessage _) => true
  | _ => false

/-- Predicate: the action is an emission to some individual socket. -/
def Action.isEmitAct : Action → Bool
  | .emit _ _ => true
  | _ => false

/-- Predicate: the action is an `error` emission to some socket. -/
def Action.isErrorEmit : Action → Bool
  | .emit _ (.errorEvent _) => true
  | _ => false

/-- Predicate: the action is a broadcast (`io.emit`) to all connected
clients. -/
def Action.isBroadcastAct : Action → Bool
  | .broadcast _ => true
  | _ => false

/-- Predicate: a `receive_direct_message` emission to socket `hdl`. -/
def isDirectRcvTo (hdl : Nat) : Action → Bool
  | .emit s (.receiveDirectMessage _) => decide (s = hdl)
  | _ => false

/-- Predicate: a `receive_group_message` emission to socket `hdl`. -/
def isGroupRcvTo (hdl : Nat) : Action → Bool
  | .emit s (.receiveGroupMessage _) => decide (s = hdl)
  | _ => false

/-- Predicate: a `message_sent` emission to socket `hdl`. -/
def isMsgSentTo (hdl : Nat) : Action → Bool
  | .emit s (.messageSent _) => decide (s = hdl)
  | _ => false

/-- Predicate: a `user_typing_group` emission to socket `hdl`. -/
def isTypingGroupTo (hdl : Nat) : Action → Bool
  | .emit s (.userTypingGroup _ _ _ _) => decide (s = hdl)
  | _ => false

/-! Basic lemmas about the registry map operations. -/

theorem mapGet_eq_none_of_not_mem : ∀ (reg : Registry) (k : JVal),
    k ∉ regKeys reg → mapGet reg k = none
  | [], _, _ => rfl
  | (k', _) :: rest, k, h => by
    have hne : ¬ (k' = k) := by
      intro e
      exact h (by simp [e])
    have hrest : k ∉ regKeys rest := by
      intro hm
      exact h (by simp [hm])
    simp [mapGet, hne, mapGet_eq_none_of_not_mem rest k hrest]

theorem mem_regKeys_mapSet : ∀ (reg : Registry) (k : JVal) (v : Nat) (a : JVal),
    a ∈ regKeys (mapSet reg k v) ↔ a ∈ regKeys reg ∨ a = k
  | [], k, v, a => by simp [mapSet]
  | (k', v') :: rest, k, v, a => by
    by_cases hk : k' = k
    · subst hk
      simp [mapSet]
      tauto
    · simp [mapSet, hk, mem_regKeys_mapSet rest k v a]
      tauto

theorem regKeys_nodup_mapSet : ∀ (reg : Registry) (k : JVal) (v : Nat),
    (regKeys reg).Nodup → (regKeys (mapSet reg k v)).Nodup
  | [], k, v, _ => by simp [mapSet]
  | (k', v') :: rest, k, v, h => by
    have h' : k' ∉ regKeys rest ∧ (regKeys rest).Nodup := by
      constructor
      · exact (List.nodup_cons.mp (by simpa using h)).1
      · exact (List.nodup_cons.mp (by simpa using h)).2
    by_cases hk : k' = k
    · subst hk
      simpa [mapSet] using h
    · have h3 : k' ∉ regKeys (mapSet rest k v) := by
        rw [mem_regKeys_mapSet]
        push_neg
        exact ⟨h'.1, hk⟩
      simp only [mapSet, if_neg hk, List.map_cons, List.nodup_cons]
      exact ⟨by simpa using h3, regKeys_nodup_mapSet rest k v h'.2⟩

theorem mapGet_mapSet_self : ∀ (reg : Registry) (k : JVal) (v : Nat),
    mapGet (mapSet reg k v) k = some v
  | [], k, v => by simp [mapSet, mapGet]
  | (k', v') :: rest, k, v => by
    by_cases hk : k' = k
    · subst hk
      simp [mapSet, mapGet]
    · simp [mapSet, hk, mapGet, mapGet_mapSet_self rest k v]

theorem mapGet_mapDelete_self : ∀ (reg : Registry) (k : JVal),
    (regKeys reg).Nodup → mapGet (mapDelete reg k) k = none
  | [], _, _ => rfl
  | (k', v') :: rest, k, h => by
    have h' : k' ∉ regKeys rest ∧ (regKeys rest).Nodup :=
      List.nodup_cons.mp (by simpa using h)
    by_cases hk : k' = k
    · subst hk
      simpa [mapDelete] using mapGet_eq_none_of_not_mem rest k' h'.1
    · simp [mapDelete, hk, mapGet, mapGet_mapDelete_self rest k h'.2]

theorem mem_of_mapGet_eq_some : ∀ (reg : Registry) (u : JVal) (hdl : Nat),
    mapGet reg u = some hdl → (u, hdl) ∈ reg
  | [], u, hdl, hy => by simp [mapGet] at hy
  | (k', v') :: rest, u, hdl, hy => by
    by_cases hk : k' = u
    · subst hk
      simp [mapGet] at hy
      subst hy
      exact List.mem_cons_self _ _
    · simp [mapGet, hk] at hy
      exact List.mem_cons_of_mem _ (mem_of_mapGet_eq_some rest u hdl hy)

theorem mem_fst_eq_of_handles_nodup : ∀ (reg : Registry),
    (regHandles reg).Nodup → ∀ (u1 u2 : JVal) (hdl : Nat),
    (u1, hdl) ∈ reg → (u2, hdl) ∈ reg → u1 = u2
  | [], _, u1, u2, hdl, h1, _ => by simp at h1
  | (k, v) :: rest, hnd, u1, u2, hdl, h1, h2 => by
    have h' : v ∉ regHandles rest ∧ (regHandles rest).Nodup :=
      List.nodup_cons.mp (by simpa using hnd)
    rcases List.mem_cons.mp h1 with e1 | m1 <;>
      rcases List.mem_cons.mp h2 with e2 | m2
    · injection e1 with a1 b1
      injection e2 with a2 b2
      rw [a1, a2]
    · injection e1 with a1 b1
      exact absurd (b1 ▸ List.mem_map_of_mem Prod.snd m2) h'.1
    · injection e2 with a2 b2
      exact absurd (b2 ▸ List.mem_map_of_mem Prod.snd m1) h'.1
    · exact mem_fst_eq_of_handles_nodup rest h'.2 u1 u2 hdl m1 m2

theorem mapGet_inj_of_handles_nodup (reg : Registry)
    (hnd : (regHandles reg).Nodup) (u1 u2 : JVal) (hdl : Nat)
    (h1 : mapGet reg u1 = some hdl) (h2 : mapGet reg u2 = some hdl) :
    u1 = u2 :=
  mem_fst_eq_of_handles_nodup reg hnd u1 u2 hdl
    (mem_of_mapGet_eq_some reg u1 hdl h1)
    (mem_of_mapGet_eq_some reg u2 hdl h2)

/-! Lemmas about the fan-out loop. -/

theorem fanOut_mem {reg : Registry} {ev : OutEvent} {l : List JVal}
    {a : Action} (h : a ∈ fanOut reg ev l) : ∃ sid, a = Action.emit sid ev := by
  obtain ⟨u, _, hf⟩ := List.mem_filterMap.mp h
  cases hget : mapGet reg u with
  | none => rw [hget] at hf; simp at hf
  | some sid =>
      rw [hget] at hf
      simp at hf
      exact ⟨sid, hf.symm⟩

theorem fanOut_countP : ∀ (l : List JVal) (reg : Registry) (ev : OutEvent)
    (hdl : Nat) (p : Action → Bool),
    (∀ sid, p (Action.emit sid ev) = decide (sid = hdl)) →
    (fanOut reg ev l).countP p =
      (l.filter (fun u => decide (mapGet reg u = some hdl))).length
  | [], reg, ev, hdl, p, hp => by simp [fanOut]
  | u :: rest, reg, ev, hdl, p, hp => by
    have ih := fanOut_countP rest reg ev hdl p hp
    cases hget : mapGet reg u with
    | none =>
        simp only [fanOut, List.filterMap_cons, hget, Option.map_none',
          List.filter_cons, hget]
        simpa [fanOut, hget] using ih
    | some sid =>
        by_cases hs : sid = hdl
        · subst hs
          simp only [fanOut, List.filterMap_cons, hget, Option.map_some',
            List.countP_cons, List.filter_cons]
          simp [fanOut] at ih
          simp [ih, hp, hget]
        · simp only [fanOut, List.filterMap_cons, hget, Option.map_some',
            List.countP_cons, List.filter_cons]
          simp [fanOut] at ih
          simp [ih, hp, hs, hget]

theorem fanOut_countP_isInsert (reg : Registry) (ev : OutEvent)
    (l : List JVal) : (fanOut reg ev l).countP Action.isInsert = 0 := by
  rw [List.countP_eq_zero]
  intro a ha
  obtain ⟨sid, rfl⟩ := fanOut_mem ha
  simp [Action.isInsert]

theorem fanOut_countP_isErrorEmit (reg : Registry) (ev : OutEvent)
    (l : List JVal)
    (hev : ∀ m, ev ≠ OutEvent.errorEvent m) :
    (fanOut reg ev l).countP Action.isErrorEmit = 0 := by
  rw [List.countP_eq_zero]
  intro a ha
  obtain ⟨sid, rfl⟩ := fanOut_mem ha
  cases ev with
  | errorEvent m => exact absurd rfl (hev m)
  | receiveDirectMessage _ => simp [Action.isErrorEmit]
  | messageSent _ => simp [Action.isErrorEmit]
  | receiveGroupMessage _ => simp [Action.isErrorEmit]
  | userStatusChange _ _ _ => simp [Action.isErrorEmit]
  | userTypingDirect _ _ _ => simp [Action.isErrorEmit]
  | userTypingGroup _ _ _ _ => simp [Action.isErrorEmit]

/-! Counting lemmas for the member filter. -/

theorem filter_length_eq_zero_of_none : ∀ (l : List JVal) (reg : Registry)
    (hdl : Nat), (∀ u ∈ l, mapGet reg u ≠ some hdl) →
    (l.filter (fun u => decide (mapGet reg u = some hdl))).length = 0
  | [], _, _, _ => rfl
  | u :: rest, reg, hdl, h => by
    have hu : mapGet reg u ≠ some hdl := h u (List.mem_cons_self _ _)
    have ih := filter_length_eq_zero_of_none rest reg hdl
      (fun x hx => h x (List.mem_cons_of_mem _ hx))
    simp [List.filter_cons, hu, ih]

theorem filter_length_eq_one_of_unique : ∀ (l : List JVal) (reg : Registry)
    (u : JVal) (hdl : Nat), l.Nodup → u ∈ l → mapGet reg u = some hdl →
    (∀ u', mapGet reg u' = some hdl → u' = u) →
    (l.filter (fun u' => decide (mapGet reg u' = some hdl))).length = 1
  | [], _, u, _, _, hu, _, _ => by simp at hu
  | a :: rest, reg, u, hdl, hnd, hu, hget, huniq => by
    have h' : a ∉ rest ∧ rest.Nodup := List.nodup_cons.mp hnd
    rcases List.mem_cons.mp hu with rfl | hmem
    · have hzero : ∀ x ∈ rest, mapGet reg x ≠ some hdl := by
        intro x hx he
        exact h'.1 ((huniq x he) ▸ hx)
      simp [List.filter_cons, hget,
        filter_length_eq_zero_of_none rest reg hdl hzero]
    · have hhead : mapGet reg a ≠ some hdl := by
        intro he
        exact h'.1 ((huniq a he) ▸ hmem)
      simp [List.filter_cons, hhead,
        filter_length_eq_one_of_unique rest reg u hdl h'.2 hmem hget huniq]

theorem exists_of_filter_length_pos : ∀ (l : List JVal) (p : JVal → Bool),
    (l.filter p).length ≠ 0 → ∃ u, u ∈ l ∧ p u = true
  | [], p, h => by simp at h
  | a :: rest, p, h => by
    by_cases hp : p a = true
    · exact ⟨a, List.mem_cons_self _ _, hp⟩
    · have : (rest.filter p).length ≠ 0 := by
        simpa [List.filter_cons, hp] using h
      obtain ⟨u, hu, hpu⟩ := exists_of_filter_length_pos rest p this
      exact ⟨u, List.mem_cons_of_mem _ hu, hpu⟩

theorem sender_mem_membersOf (db : Db) (g u : JVal)
    (h : (memberRows db g u).length ≠ 0) : u ∈ membersOf db g := by
  have hne : memberRows db g u ≠ [] := by
    intro e
    rw [e] at h
    exact h rfl
  obtain ⟨r, hr⟩ := List.exists_mem_of_ne_nil _ hne
  have := List.mem_filter.mp hr
  have h1 : r.1 = g := by
    have := this.2
    simp at this
    exact this.1
  have h2 : r.2 = u := by
    have := this.2
    simp at this
    exact this.2
  have : r ∈ db.groupRows.filter (fun r => decide (r.1 = g)) :=
    List.mem_filter.mpr ⟨this.1, by simp [h1]⟩
  exact h2 ▸ List.mem_map_of_mem Prod.snd this

theorem typingMembers_ne_sender (db : Db) (g s : JVal) (u : JVal)
    (h : u ∈ typingMembers db g s) : u ≠ s := by
  obtain ⟨r, hr, hru⟩ := List.mem_map.mp h
  have := (List.mem_filter.mp hr).2
  simp at this
  intro he
  exact this.2 (hru.trans he ▸ rfl)

theorem typingMembers_sub_members (db : Db) (g s : JVal) (u : JVal)
    (h : u ∈ typingMembers db g s) : u ∈ membersOf db g := by
  obtain ⟨r, hr, hru⟩ := List.mem_map.mp h
  have hm := List.mem_filter.mp hr
  have h1 : r.1 = g := by
    have := hm.2
    simp at this
    exact this.1
  exact hru ▸ List.mem_map_of_mem Prod.snd
    (List.mem_filter.mpr ⟨hm.1, by simp [h1]⟩)

/-! Claim theorems. -/

/-- C1, counterexample: the claim states that after registering user 7 on
handle 1 and again on handle 2, a disconnect of the connection on handle 1
leaves `lookup 7 = some 2`.  On the code this is false: the disconnect handler
deletes the user's entry unconditionally, so the lookup returns `none`. -/
theorem C1_registry_claim_false_at_input :
    ¬ (lookup
        ((onDisconnect (⟨[], false, false, false, false, false, false, 1⟩ : Db)
          (⟨1, JVal.num 7, "alice"⟩ : Socket)
          (register (register ([] : Registry) (JVal.num 7) 1)
            (JVal.num 7) 2)).1)
        (JVal.num 7) = some 2) := by decide

/-- C1, amended: the disconnect handler runs `userSockets.delete(socket.userId)`
with no guard on which handle is disconnecting, so after registering a user on
handle `h1` and then on handle `h2`, the disconnect of the connection on `h1`
removes the user's registry entry entirely: `lookup` returns `none` (absent),
not the newer handle `h2`. -/
theorem C1_disconnect_removes_superseded_entry (reg : Registry) (db : Db)
    (u : JVal) (h1 h2 : Nat) (name : String)
    (hnd : (regKeys reg).Nodup) :
    lookup
      ((onDisconnect db ⟨h1, u, name⟩
        (register (register reg u h1) u h2)).1) u = none := by
  have hnd2 : (regKeys (mapSet (mapSet reg u h1) u h2)).Nodup :=
    regKeys_nodup_mapSet _ u h2 (regKeys_nodup_mapSet reg u h1 hnd)
  simpa [onDisconnect, lookup, register] using
    mapGet_mapDelete_self (mapSet (mapSet reg u h1) u h2) u hnd2

/-- Witness for the amended C1 theorem at a concrete input. -/
theorem C1_disconnect_removes_superseded_entry_witness :
    lookup
      ((onDisconnect (⟨[], false, false, false, false, false, false, 1⟩ : Db)
        (⟨1, JVal.num 7, "alice"⟩ : Socket)
        (register (register ([(JVal.num 3, 9)] : Registry) (JVal.num 7) 1)
          (JVal.num 7) 2)).1)
      (JVal.num 7) = none :=
  C1_disconnect_removes_superseded_entry [(JVal.num 3, 9)]
    (⟨[], false, false, false, false, false, false, 1⟩ : Db)
    (JVal.num 7) 1 2 "alice" (by decide)

/-- C7: a direct-send payload whose `receiverId` is missing or whose
`messageText` is missing or empty is rejected by the validation guard: the
handler emits a single `error` event to the sender and performs no persistence
and no delivery to anyone. -/
theorem C7_direct_validation_rejects (db : Db) (sock : Socket) (reg : Registry)
    (data : DirectPayload)
    (h : data.receiverId = JVal.undef ∨ data.messageText = JVal.undef ∨
         data.messageText = JVal.str "") :
    sendDirectMessage db sock reg data =
      [Action.emit sock.id (OutEvent.errorEvent "Invalid message data")] := by
  have hfalse : (!data.receiverId.truthy || !data.messageText.truthy) = true := by
    rcases h with h | h | h <;> simp [h, JVal.truthy]
  simp [sendDirectMessage, hfalse]

/-- Witness for C7 at a concrete input (missing `receiverId`). -/
theorem C7_direct_validation_rejects_witness :
    sendDirectMessage (⟨[], false, false, false, false, false, false, 1⟩ : Db)
      (⟨1, JVal.num 7, "alice"⟩ : Socket) ([] : Registry)
      ⟨JVal.undef, JVal.str "hi"⟩ =
      [Action.emit 1 (OutEvent.errorEvent "Invalid message data")] :=
  C7_direct_validation_rejects _ _ _ _ (Or.inl rfl)

/-- C9: the `typing_direct` handler relays `user_typing_direct` to the target
exactly when the target has a registered handle; when the target is not
registered the handler performs no action at all — no error event and no other
effect. -/
theorem C9_typing_direct_iff_registered (sock : Socket) (reg : Registry)
    (data : TypingDirectPayload) :
    (∀ hdl, mapGet reg data.receiverId = some hdl →
       typingDirect sock reg data =
         [Action.emit hdl
           (OutEvent.userTypingDirect sock.userId sock.username
             data.isTyping)]) ∧
    (mapGet reg data.receiverId = none → typingDirect sock reg data = []) := by
  constructor
  · intro hdl h
    simp [typingDirect, h]
  · intro h
    simp [typingDirect, h]

/-- Witness for C9 at concrete inputs: a registered and an unregistered
target. -/
theorem C9_typing_direct_iff_registered_witness :
    typingDirect (⟨1, JVal.num 7, "alice"⟩ : Socket)
      ([(JVal.num 8, 2)] : Registry) ⟨JVal.num 8, JVal.boolean true⟩ =
      [Action.emit 2 (OutEvent.userTypingDirect (JVal.num 7) "alice"
        (JVal.boolean true))] ∧
    typingDirect (⟨1, JVal.num 7, "alice"⟩ : Socket)
      ([(JVal.num 8, 2)] : Registry) ⟨JVal.num 9, JVal.boolean true⟩ = [] :=
  ⟨(C9_typing_direct_iff_registered _ _ _).1 2 (by decide),
   (C9_typing_direct_iff_registered _ _ _).2 (by decide)⟩

/-- C10: validation is JavaScript truthiness: a direct send whose `receiverId`
is present but falsy (such as `0` or `""`) and a group send whose `groupId` is
falsy are rejected exactly like a missing field — a single `error` emission to
the sender, no persistence, no delivery. -/
theorem C10_falsy_ids_rejected (db : Db) (sock : Socket) (reg : Registry)
    (dd : DirectPayload) (gd : GroupPayload)
    (hd : dd.receiverId.truthy = false) (hg : gd.groupId.truthy = false) :
    sendDirectMessage db sock reg dd =
      [Action.emit sock.id (OutEvent.errorEvent "Invalid message data")] ∧
    sendGroupMessage db sock reg gd =
      [Action.emit sock.id (OutEvent.errorEvent "Invalid message data")] := by
  constructor
  · simp [sendDirectMessage, hd]
  · simp [sendGroupMessage, hg]

/-- C4: for a valid direct send whose persistence succeeds, the receiver gets
exactly one `receive_direct_message` when registered at send time and zero
deliveries occur when not registered, while the sender always gets exactly one
`message_sent` confirmation. -/
theorem C4_direct_delivery_and_confirmation (db : Db) (sock : Socket)
    (reg : Registry) (data : DirectPayload)
    (hr : data.receiverId.truthy = true) (ht : data.messageText.truthy = true)
    (hok : db.insertDirectFails = false) :
    (∀ hdl, mapGet reg data.receiverId = some hdl →
       (sendDirectMessage db sock reg data).countP (isDirectRcvTo hdl) = 1) ∧
    (mapGet reg data.receiverId = none →
       (sendDirectMessage db sock reg data).countP Action.isRcv = 0) ∧
    (sendDirectMessage db sock reg data).countP (isMsgSentTo sock.id) = 1 := by
  have hcond : (!data.receiverId.truthy || !data.messageText.truthy) = false := by
    simp [hr, ht]
  refine ⟨?_, ?_, ?_⟩
  · intro hdl h
    simp [sendDirectMessage, hcond, hok, h, List.countP_cons, isDirectRcvTo]
  · intro h
    simp [sendDirectMessage, hcond, hok, h, List.countP_cons, Action.isRcv]
  · cases h : mapGet reg data.receiverId with
    | some hdl =>
        simp [sendDirectMessage, hcond, hok, h, List.countP_cons, isMsgSentTo]
    | none =>
        simp [sendDirectMessage, hcond, hok, h, List.countP_cons, isMsgSentTo]

/-- Witness for C4 at concrete inputs: a registered receiver (socket 2), an
unregistered receiver, and the sender confirmation. -/
theorem C4_direct_delivery_and_confirmation_witness :
    (sendDirectMessage (⟨[], false, false, false, false, false, false, 1⟩ : Db)
      (⟨1, JVal.num 7, "alice"⟩ : Socket) ([(JVal.num 8, 2)] : Registry)
      ⟨JVal.num 8, JVal.str "hi"⟩).countP (isDirectRcvTo 2) = 1 ∧
    (sendDirectMessage (⟨[], false, false, false, false, false, false, 1⟩ : Db)
      (⟨1, JVal.num 7, "alice"⟩ : Socket) ([(JVal.num 8, 2)] : Registry)
      ⟨JVal.num 9, JVal.str "hi"⟩).countP Action.isRcv = 0 ∧
    (sendDirectMessage (⟨[], false, false, false, false, false, false, 1⟩ : Db)
      (⟨1, JVal.num 7, "alice"⟩ : Socket) ([(JVal.num 8, 2)] : Registry)
      ⟨JVal.num 8, JVal.str "hi"⟩).countP (isMsgSentTo 1) = 1 :=
  ⟨(C4_direct_delivery_and_confirmation
      (⟨[], false, false, false, false, false, false, 1⟩ : Db)
      (⟨1, JVal.num 7, "alice"⟩ : Socket) ([(JVal.num 8, 2)] : Registry)
      ⟨JVal.num 8, JVal.str "hi"⟩ (by decide) (by decide)
      rfl).1 2 (by decide),
   (C4_direct_delivery_and_confirmation
      (⟨[], false, false, false, false, false, false, 1⟩ : Db)
      (⟨1, JVal.num 7, "alice"⟩ : Socket) ([(JVal.num 8, 2)] : Registry)
      ⟨JVal.num 9, JVal.str "hi"⟩ (by decide) (by decide)
      rfl).2.1 (by decide),
   (C4_direct_delivery_and_confirmation
      (⟨[], false, false, false, false, false, false, 1⟩ : Db)
      (⟨1, JVal.num 7, "alice"⟩ : Socket) ([(JVal.num 8, 2)] : Registry)
      ⟨JVal.num 8, JVal.str "hi"⟩ (by decide) (by decide)
      rfl).2.2⟩

/-- C5: a group send whose sender has no membership row for the group performs
no persistence, delivers no `receive_group_message` to anyone, and its only
emission is a single `error` event to the sender's own socket. -/
theorem C5_nonmember_group_send_rejected (db : Db) (sock : Socket)
    (reg : Registry) (data : GroupPayload)
    (hnm : memberRows db data.groupId sock.userId = []) :
    (sendGroupMessage db sock reg data).countP Action.isInsert = 0 ∧
    (sendGroupMessage db sock reg data).countP Action.isRcv = 0 ∧
    (∃ m, (sendGroupMessage db sock reg data).filter Action.isEmitAct =
       [Action.emit sock.id (OutEvent.errorEvent m)]) := by
  by_cases hv : (!data.groupId.truthy || !data.messageText.truthy) = true
  · refine ⟨?_, ?_, ⟨"Invalid message data", ?_⟩⟩ <;>
      simp [sendGroupMessage, hv, List.countP_cons, List.filter_cons,
        Action.isInsert, Action.isRcv, Action.isEmitAct]
  · have hv' : (!data.groupId.truthy || !data.messageText.truthy) = false := by
      simpa using hv
    cases hc : db.memberCheckFails with
    | true =>
        refine ⟨?_, ?_, ⟨"Failed to send message", ?_⟩⟩ <;>
          simp [sendGroupMessage, hv', hc, List.countP_cons, List.filter_cons,
            Action.isInsert, Action.isRcv, Action.isEmitAct]
    | false =>
        have hlen : (memberRows db data.groupId sock.userId).length = 0 := by
          simp [hnm]
        refine ⟨?_, ?_, ⟨"You are not a member of this group", ?_⟩⟩ <;>
          simp [sendGroupMessage, hv', hc, hlen, List.countP_cons,
            List.filter_cons, Action.isInsert, Action.isRcv, Action.isEmitAct]

/-- Witness for C5 at a concrete input: an empty `GroupMembers` table, so the
sender is not a member. -/
theorem C5_nonmember_group_send_rejected_witness :
    (sendGroupMessage (⟨[], false, false, false, false, false, false, 1⟩ : Db)
      (⟨1, JVal.num 7, "alice"⟩ : Socket) ([(JVal.num 8, 2)] : Registry)
      ⟨JVal.num 5, JVal.str "hi"⟩).countP Action.isInsert = 0 ∧
    (sendGroupMessage (⟨[], false, false, false, false, false, false, 1⟩ : Db)
      (⟨1, JVal.num 7, "alice"⟩ : Socket) ([(JVal.num 8, 2)] : Registry)
      ⟨JVal.num 5, JVal.str "hi"⟩).countP Action.isRcv = 0 ∧
    (∃ m, (sendGroupMessage
      (⟨[], false, false, false, false, false, false, 1⟩ : Db)
      (⟨1, JVal.num 7, "alice"⟩ : Socket) ([(JVal.num 8, 2)] : Registry)
      ⟨JVal.num 5, JVal.str "hi"⟩).filter Action.isEmitAct =
        [Action.emit 1 (OutEvent.errorEvent m)]) :=
  C5_nonmember_group_send_rejected _ _ _ _ (by decide)

/-- C6: each registry transition — a connection registering on authenticated
connect, or deregistering on disconnect — performs exactly one broadcast, which
is `user_status_change` with the correct `isOnline` value, for every database
behaviour (in particular even when the online-status write fails); a failing
status write is logged and swallowed. -/
theorem C6_presence_broadcast_exactly_once (db : Db) (sock : Socket)
    (reg : Registry) :
    ((onConnection db sock reg).2.filter Action.isBroadcastAct =
       [Action.broadcast
         (OutEvent.userStatusChange sock.userId sock.username true)]) ∧
    ((onDisconnect db sock reg).2.filter Action.isBroadcastAct =
       [Action.broadcast
         (OutEvent.userStatusChange sock.userId sock.username false)]) ∧
    (db.statusWriteFails = true →
       Action.logged "Error updating online status" ∈
         (onConnection db sock reg).2 ∧
       Action.logged "Error updating offline status" ∈
         (onDisconnect db sock reg).2) := by
  cases hs : db.statusWriteFails with
  | true =>
      refine ⟨?_, ?_, fun _ => ⟨?_, ?_⟩⟩ <;>
        simp [onConnection, onDisconnect, hs, List.filter_cons,
          Action.isBroadcastAct]
  | false =>
      refine ⟨?_, ?_, fun h => absurd h (by simp [hs])⟩ <;>
        simp [onConnection, onDisconnect, hs, List.filter_cons,
          Action.isBroadcastAct]

/-- Witness for C6 at a concrete input with a failing status write. -/
theorem C6_presence_broadcast_exactly_once_witness :
    ((onConnection (⟨[], false, false, false, false, false, true, 1⟩ : Db)
      (⟨1, JVal.num 7, "alice"⟩ : Socket) ([] : Registry)).2.filter
        Action.isBroadcastAct =
      [Action.broadcast
        (OutEvent.userStatusChange (JVal.num 7) "alice" true)]) ∧
    Action.logged "Error updating online status" ∈
      (onConnection (⟨[], false, false, false, false, false, true, 1⟩ : Db)
        (⟨1, JVal.num 7, "alice"⟩ : Socket) ([] : Registry)).2 :=
  ⟨(C6_presence_broadcast_exactly_once
      (⟨[], false, false, false, false, false, true, 1⟩ : Db)
      (⟨1, JVal.num 7, "alice"⟩ : Socket) ([] : Registry)).1,
   ((C6_presence_broadcast_exactly_once
      (⟨[], false, false, false, false, false, true, 1⟩ : Db)
      (⟨1, JVal.num 7, "alice"⟩ : Socket) ([] : Registry)).2.2 rfl).1⟩

/-- C3: for a valid group send by an authorized member with all store calls
succeeding, the message is persisted exactly once, every group member with a
registered handle — the sender included, with no special case — receives
exactly one `receive_group_message`, and every delivery goes to the handle of
some group member (members without a registered handle receive nothing). -/
theorem C3_group_fanout_exactly_once (db : Db) (sock : Socket) (reg : Registry)
    (data : GroupPayload)
    (hg : data.groupId.truthy = true) (ht : data.messageText.truthy = true)
    (hq1 : db.memberCheckFails = false) (hq2 : db.insertGroupFails = false)
    (hq3 : db.membersQueryFails = false)
    (hmem : (memberRows db data.groupId sock.userId).length ≠ 0)
    (hnd : (membersOf db data.groupId).Nodup)
    (hh : (regHandles reg).Nodup) :
    (sendGroupMessage db sock reg data).countP Action.isInsert = 1 ∧
    (∀ u hdl, u ∈ membersOf db data.groupId → mapGet reg u = some hdl →
       (sendGroupMessage db sock reg data).countP (isGroupRcvTo hdl) = 1) ∧
    (∀ hdl, mapGet reg sock.userId = some hdl →
       (sendGroupMessage db sock reg data).countP (isGroupRcvTo hdl) = 1) ∧
    (∀ hdl, (sendGroupMessage db sock reg data).countP (isGroupRcvTo hdl) ≠ 0 →
       ∃ u, u ∈ membersOf db data.groupId ∧ mapGet reg u = some hdl) := by
  have hcond : (!data.groupId.truthy || !data.messageText.truthy) = false := by
    simp [hg, ht]
  have htrace : sendGroupMessage db sock reg data =
      Action.insertGroup data.groupId sock.userId data.messageText ::
        fanOut reg (OutEvent.receiveGroupMessage
          ⟨db.nextInsertId, data.groupId, sock.userId, sock.username,
           data.messageText⟩)
          (membersOf db data.groupId) := by
    simp [sendGroupMessage, hcond, hq1, hq2, hq3, hmem]
  have key : ∀ u hdl, u ∈ membersOf db data.groupId →
      mapGet reg u = some hdl →
      (sendGroupMessage db sock reg data).countP (isGroupRcvTo hdl) = 1 := by
    intro u hdl hu hget
    rw [htrace, List.countP_cons,
      fanOut_countP _ reg _ hdl _ (fun sid => rfl)]
    have hone := filter_length_eq_one_of_unique (membersOf db data.groupId)
      reg u hdl hnd hu hget
      (fun u' h' => mapGet_inj_of_handles_nodup reg hh u' u hdl h' hget)
    simp [hone, isGroupRcvTo]
  refine ⟨?_, key, ?_, ?_⟩
  · rw [htrace, List.countP_cons]
    simp [Action.isInsert, fanOut_countP_isInsert]
  · intro hdl hget
    exact key sock.userId hdl
      (sender_mem_membersOf db data.groupId sock.userId hmem) hget
  · intro hdl hne
    rw [htrace, List.countP_cons,
      fanOut_countP _ reg _ hdl _ (fun sid => rfl)] at hne
    have hpos : ((membersOf db data.groupId).filter
        (fun u => decide (mapGet reg u = some hdl))).length ≠ 0 := by
      intro e
      apply hne
      simp [e, isGroupRcvTo]
    obtain ⟨u, hu, hp⟩ := exists_of_filter_length_pos _ _ hpos
    exact ⟨u, hu, of_decide_eq_true hp⟩

/-- Witness for C3 at a concrete input: group 5 with members 7 (the sender,
registered on socket 1), 8 (registered on socket 2) and 9 (offline). -/
theorem C3_group_fanout_exactly_once_witness :
    (sendGroupMessage
      (⟨[(JVal.num 5, JVal.num 7), (JVal.num 5, JVal.num 8),
         (JVal.num 5, JVal.num 9)], false, false, false, false, false, false,
         1⟩ : Db)
      (⟨1, JVal.num 7, "alice"⟩ : Socket)
      ([(JVal.num 7, 1), (JVal.num 8, 2)] : Registry)
      ⟨JVal.num 5, JVal.str "hi"⟩).countP Action.isInsert = 1 ∧
    (sendGroupMessage
      (⟨[(JVal.num 5, JVal.num 7), (JVal.num 5, JVal.num 8),
         (JVal.num 5, JVal.num 9)], false, false, false, false, false, false,
         1⟩ : Db)
      (⟨1, JVal.num 7, "alice"⟩ : Socket)
      ([(JVal.num 7, 1), (JVal.num 8, 2)] : Registry)
      ⟨JVal.num 5, JVal.str "hi"⟩).countP (isGroupRcvTo 2) = 1 ∧
    (sendGroupMessage
      (⟨[(JVal.num 5, JVal.num 7), (JVal.num 5, JVal.num 8),
         (JVal.num 5, JVal.num 9)], false, false, false, false, false, false,
         1⟩ : Db)
      (⟨1, JVal.num 7, "alice"⟩ : Socket)
      ([(JVal.num 7, 1), (JVal.num 8, 2)] : Registry)
      ⟨JVal.num 5, JVal.str "hi"⟩).countP (isGroupRcvTo 1) = 1 :=
  ⟨(C3_group_fanout_exactly_once _ _ _ _ (by decide) (by decide) rfl rfl rfl
      (by decide) (by decide) (by decide)).1,
   (C3_group_fanout_exactly_once _ _ _ _ (by decide) (by decide) rfl rfl rfl
      (by decide) (by decide) (by decide)).2.1 (JVal.num 8) 2 (by decide)
      (by decide),
   (C3_group_fanout_exactly_once _ _ _ _ (by decide) (by decide) rfl rfl rfl
      (by decide) (by decide) (by decide)).2.2.1 1 (by decide)⟩

/-- C8: the `typing_group` relay delivers `user_typing_group` exactly once to
each group member other than the sender who has a registered handle, delivers
only to handles of such members (never to the sender's handle), emits no
`error` event in any case, and treats a membership-lookup failure as an empty
member set: the handler only logs and emits nothing. -/
theorem C8_typing_group_relay (db : Db) (sock : Socket) (reg : Registry)
    (data : TypingGroupPayload)
    (hnd : (typingMembers db data.groupId sock.userId).Nodup)
    (hh : (regHandles reg).Nodup) :
    (db.typingMembersFails = false →
      (∀ u hdl, u ∈ typingMembers db data.groupId sock.userId →
         mapGet reg u = some hdl →
         (typingGroup db sock reg data).countP (isTypingGroupTo hdl) = 1) ∧
      (∀ hdl, (typingGroup db sock reg data).countP (isTypingGroupTo hdl) ≠ 0 →
         ∃ u, u ∈ typingMembers db data.groupId sock.userId ∧
           mapGet reg u = some hdl) ∧
      (∀ hdl, mapGet reg sock.userId = some hdl →
         (typingGroup db sock reg data).countP (isTypingGroupTo hdl) = 0)) ∧
    (typingGroup db sock reg data).countP Action.isErrorEmit = 0 ∧
    (db.typingMembersFails = true →
      typingGroup db sock reg data =
        [Action.logged "Error handling typing indicator"]) := by
  cases hf : db.typingMembersFails with
  | true =>
      refine ⟨fun h => absurd h (by simp [hf]), ?_, fun _ => ?_⟩
      · simp [typingGroup, hf, List.countP_cons, Action.isErrorEmit]
      · simp [typingGroup, hf]
  | false =>
      have htrace : typingGroup db sock reg data =
          fanOut reg (OutEvent.userTypingGroup data.groupId sock.userId
            sock.username data.isTyping)
            (typingMembers db data.groupId sock.userId) := by
        simp [typingGroup, hf]
      refine ⟨fun _ => ⟨?_, ?_, ?_⟩, ?_, fun h => absurd h (by simp [hf])⟩
      · intro u hdl hu hget
        rw [htrace, fanOut_countP _ reg _ hdl _ (fun sid => rfl)]
        exact filter_length_eq_one_of_unique _ reg u hdl hnd hu hget
          (fun u' h' => mapGet_inj_of_handles_nodup reg hh u' u hdl h' hget)
      · intro hdl hne
        rw [htrace, fanOut_countP _ reg _ hdl _ (fun sid => rfl)] at hne
        obtain ⟨u, hu, hp⟩ := exists_of_filter_length_pos _ _ hne
        exact ⟨u, hu, of_decide_eq_true hp⟩
      · intro hdl hget
        rw [htrace, fanOut_countP _ reg _ hdl _ (fun sid => rfl)]
        exact filter_length_eq_zero_of_none _ reg hdl (fun u hu he =>
          typingMembers_ne_sender db data.groupId sock.userId u hu
            (mapGet_inj_of_handles_nodup reg hh u sock.userId hdl he hget))
      · rw [htrace]
        exact fanOut_countP_isErrorEmit reg _ _ (fun m => by simp)

/-- Witness for C8 at a concrete input: group 5 with sender 7 (registered),
member 8 (registered on socket 2) and member 9 (offline); and a failing
membership query. -/
theorem C8_typing_group_relay_witness :
    (typingGroup
      (⟨[(JVal.num 5, JVal.num 7), (JVal.num 5, JVal.num 8),
         (JVal.num 5, JVal.num 9)], false, false, false, false, false, false,
         1⟩ : Db)
      (⟨1, JVal.num 7, "alice"⟩ : Socket)
      ([(JVal.num 7, 1), (JVal.num 8, 2)] : Registry)
      ⟨JVal.num 5, JVal.boolean true⟩).countP (isTypingGroupTo 2) = 1 ∧
    (typingGroup
      (⟨[(JVal.num 5, JVal.num 7), (JVal.num 5, JVal.num 8),
         (JVal.num 5, JVal.num 9)], false, false, false, false, false, false,
         1⟩ : Db)
      (⟨1, JVal.num 7, "alice"⟩ : Socket)
      ([(JVal.num 7, 1), (JVal.num 8, 2)] : Registry)
      ⟨JVal.num 5, JVal.boolean true⟩).countP (isTypingGroupTo 1) = 0 ∧
    typingGroup
      (⟨[(JVal.num 5, JVal.num 7)], false, false, false, false, true, false,
         1⟩ : Db)
      (⟨1, JVal.num 7, "alice"⟩ : Socket)
      ([(JVal.num 7, 1)] : Registry)
      ⟨JVal.num 5, JVal.boolean true⟩ =
        [Action.logged "Error handling typing indicator"] :=
  ⟨((C8_typing_group_relay _ _ _ _ (by decide) (by decide)).1 rfl).1
      (JVal.num 8) 2 (by decide) (by decide),
   ((C8_typing_group_relay _ _ _ _ (by decide) (by decide)).1 rfl).2.2 1
      (by decide),
   (C8_typing_group_relay _ _ _ _ (by decide) (by decide)).2.2 rfl⟩

/-- C2: persistence is the commit point of both send handlers.  If a direct or
group send performs any `receive_direct_message` / `receive_group_message`
delivery, then its very first action is the successful insert into the store,
which happens exactly once; and when the insert call fails on a send that
reached it, the result is exactly a logged error plus one `error` event to the
sender — no insert is recorded and no fan-out occurs. -/
theorem C2_persistence_is_commit_point (db : Db) (sock : Socket)
    (reg : Registry) (dd : DirectPayload) (gd : GroupPayload) :
    (((sendDirectMessage db sock reg dd).countP Action.isRcv ≠ 0 →
        (sendDirectMessage db sock reg dd).head? =
          some (Action.insertDirect sock.userId dd.receiverId
            dd.messageText) ∧
        (sendDirectMessage db sock reg dd).countP Action.isInsert = 1) ∧
      (db.insertDirectFails = true →
        (sendDirectMessage db sock reg dd).countP Action.isInsert = 0 ∧
        (sendDirectMessage db sock reg dd).countP Action.isRcv = 0 ∧
        (dd.receiverId.truthy = true → dd.messageText.truthy = true →
          sendDirectMessage db sock reg dd =
            [Action.logged "Error sending direct message",
             Action.emit sock.id
               (OutEvent.errorEvent "Failed to send message")]))) ∧
    (((sendGroupMessage db sock reg gd).countP Action.isRcv ≠ 0 →
        (sendGroupMessage db sock reg gd).head? =
          some (Action.insertGroup gd.groupId sock.userId gd.messageText) ∧
        (sendGroupMessage db sock reg gd).countP Action.isInsert = 1) ∧
      (db.insertGroupFails = true →
        (sendGroupMessage db sock reg gd).countP Action.isInsert = 0 ∧
        (sendGroupMessage db sock reg gd).countP Action.isRcv = 0 ∧
        (gd.groupId.truthy = true → gd.messageText.truthy = true →
         db.memberCheckFails = false →
         (memberRows db gd.groupId sock.userId).length ≠ 0 →
          sendGroupMessage db sock reg gd =
            [Action.logged "Error sending group message",
             Action.emit sock.id
               (OutEvent.errorEvent "Failed to send message")]))) := by
  refine ⟨⟨?_, ?_⟩, ?_, ?_⟩
  · intro hne
    by_cases hv : (!dd.receiverId.truthy || !dd.messageText.truthy) = true
    · exact absurd (by simp [sendDirectMessage, hv, List.countP_cons,
        Action.isRcv]) hne
    · have hv' : (!dd.receiverId.truthy || !dd.messageText.truthy) = false := by
        simpa using hv
      cases hf : db.insertDirectFails with
      | true =>
          exact absurd (by simp [sendDirectMessage, hv', hf, List.countP_cons,
            Action.isRcv]) hne
      | false =>
          cases hget : mapGet reg dd.receiverId with
          | some hdl =>
              constructor <;> simp [sendDirectMessage, hv', hf, hget,
                List.countP_cons, Action.isInsert]
          | none =>
              constructor <;> simp [sendDirectMessage, hv', hf, hget,
                List.countP_cons, Action.isInsert]
  · intro hf
    by_cases hv : (!dd.receiverId.truthy || !dd.messageText.truthy) = true
    · refine ⟨?_, ?_, ?_⟩
      · simp [sendDirectMessage, hv, List.countP_cons, Action.isInsert]
      · simp [sendDirectMessage, hv, List.countP_cons, Action.isRcv]
      · intro h1 h2
        rw [h1, h2] at hv
        simp at hv
    · have hv' : (!dd.receiverId.truthy || !dd.messageText.truthy) = false := by
        simpa using hv
      refine ⟨?_, ?_, fun _ _ => ?_⟩ <;>
        simp [sendDirectMessage, hv', hf, List.countP_cons, Action.isInsert,
          Action.isRcv]
  · intro hne
    by_cases hv : (!gd.groupId.truthy || !gd.messageText.truthy) = true
    · exact absurd (by simp [sendGroupMessage, hv, List.countP_cons,
        Action.isRcv]) hne
    · have hv' : (!gd.groupId.truthy || !gd.messageText.truthy) = false := by
        simpa using hv
      cases hmc : db.memberCheckFails with
      | true =>
          exact absurd (by simp [sendGroupMessage, hv', hmc, List.countP_cons,
            Action.isRcv]) hne
      | false =>
          by_cases hl : (memberRows db gd.groupId sock.userId).length = 0
          · exact absurd (by simp [sendGroupMessage, hv', hmc, hl,
              List.countP_cons, Action.isRcv]) hne
          · cases hig : db.insertGroupFails with
            | true =>
                exact absurd (by simp [sendGroupMessage, hv', hmc, hl, hig,
                  List.countP_cons, Action.isRcv]) hne
            | false =>
                cases hmq : db.membersQueryFails with
                | true =>
                    exact absurd (by simp [sendGroupMessage, hv', hmc, hl, hig,
                      hmq, List.countP_cons, Action.isRcv]) hne
                | false =>
                    constructor
                    · simp [sendGroupMessage, hv', hmc, hl, hig, hmq]
                    · rw [show sendGroupMessage db sock reg gd =
                          Action.insertGroup gd.groupId sock.userId
                            gd.messageText ::
                          fanOut reg (OutEvent.receiveGroupMessage
                            ⟨db.nextInsertId, gd.groupId, sock.userId,
                             sock.username, gd.messageText⟩)
                            (membersOf db gd.groupId) from by
                          simp [sendGroupMessage, hv', hmc, hl, hig, hmq],
                        List.countP_cons]
                      simp [Action.isInsert, fanOut_countP_isInsert]
  · intro hf
    by_cases hv : (!gd.groupId.truthy || !gd.messageText.truthy) = true
    · refine ⟨?_, ?_, ?_⟩
      · simp [sendGroupMessage, hv, List.countP_cons, Action.isInsert]
      · simp [sendGroupMessage, hv, List.countP_cons, Action.isRcv]
      · intro h1 h2 _ _
        rw [h1, h2] at hv
        simp at hv
    · have hv' : (!gd.groupId.truthy || !gd.messageText.truthy) = false := by
        simpa using hv
      cases hmc : db.memberCheckFails with
      | true =>
          refine ⟨?_, ?_, fun _ _ hmc' _ => absurd hmc' (by simp)⟩ <;>
            simp [sendGroupMessage, hv', hmc, List.countP_cons,
              Action.isInsert, Action.isRcv]
      | false =>
          by_cases hl : (memberRows db gd.groupId sock.userId).length = 0
          · refine ⟨?_, ?_, fun _ _ _ hl' => absurd hl hl'⟩ <;>
              simp [sendGroupMessage, hv', hmc, hl, List.countP_cons,
                Action.isInsert, Action.isRcv]
          · refine ⟨?_, ?_, fun _ _ _ _ => ?_⟩ <;>
              simp [sendGroupMessage, hv', hmc, hl, hf, List.countP_cons,
                Action.isInsert, Action.isRcv]

/-- Witness for C2 at concrete inputs: a successful direct send whose delivery
occurred (persist recorded first, exactly once), and a direct and a group send
against a store whose insert call fails (error to the sender, no insert, no
fan-out). -/
theorem C2_persistence_is_commit_point_witness :
    ((sendDirectMessage (⟨[], false, false, false, false, false, false, 1⟩ : Db)
        (⟨1, JVal.num 7, "alice"⟩ : Socket) ([(JVal.num 8, 2)] : Registry)
        ⟨JVal.num 8, JVal.str "hi"⟩).head? =
      some (Action.insertDirect (JVal.num 7) (JVal.num 8) (JVal.str "hi")) ∧
     (sendDirectMessage (⟨[], false, false, false, false, false, false, 1⟩ : Db)
        (⟨1, JVal.num 7, "alice"⟩ : Socket) ([(JVal.num 8, 2)] : Registry)
        ⟨JVal.num 8, JVal.str "hi"⟩).countP Action.isInsert = 1) ∧
    sendDirectMessage (⟨[], true, false, false, false, false, false, 1⟩ : Db)
      (⟨1, JVal.num 7, "alice"⟩ : Socket) ([(JVal.num 8, 2)] : Registry)
      ⟨JVal.num 8, JVal.str "hi"⟩ =
      [Action.logged "Error sending direct message",
       Action.emit 1 (OutEvent.errorEvent "Failed to send message")] ∧
    sendGroupMessage
      (⟨[(JVal.num 5, JVal.num 7)], false, true, false, false, false, false,
         1⟩ : Db)
      (⟨1, JVal.num 7, "alice"⟩ : Socket) ([(JVal.num 7, 1)] : Registry)
      ⟨JVal.num 5, JVal.str "hi"⟩ =
      [Action.logged "Error sending group message",
       Action.emit 1 (OutEvent.errorEvent "Failed to send message")] :=
  ⟨(C2_persistence_is_commit_point
      (⟨[], false, false, false, false, false, false, 1⟩ : Db)
      (⟨1, JVal.num 7, "alice"⟩ : Socket) ([(JVal.num 8, 2)] : Registry)
      ⟨JVal.num 8, JVal.str "hi"⟩ ⟨JVal.num 5, JVal.str "hi"⟩).1.1
      (by decide),
   ((C2_persistence_is_commit_point
      (⟨[], true, false, false, false, false, false, 1⟩ : Db)
      (⟨1, JVal.num 7, "alice"⟩ : Socket) ([(JVal.num 8, 2)] : Registry)
      ⟨JVal.num 8, JVal.str "hi"⟩ ⟨JVal.num 5, JVal.str "hi"⟩).1.2
      rfl).2.2 (by decide) (by decide),
   ((C2_persistence_is_commit_point
      (⟨[(JVal.num 5, JVal.num 7)], false, true, false, false, false, false,
         1⟩ : Db)
      (⟨1, JVal.num 7, "alice"⟩ : Socket) ([(JVal.num 7, 1)] : Registry)
      ⟨JVal.num 8, JVal.str "hi"⟩ ⟨JVal.num 5, JVal.str "hi"⟩).2.2
      rfl).2.2 (by decide) (by decide) rfl (by decide)⟩

/-- Witness for C10 at concrete inputs: `receiverId = 0` with non-empty text,
and `groupId = ""`. -/
theorem C10_falsy_ids_rejected_witness :
    sendDirectMessage (⟨[], false, false, false, false, false, false, 1⟩ : Db)
      (⟨1, JVal.num 7, "alice"⟩ : Socket) ([] : Registry)
      ⟨JVal.num 0, JVal.str "hi"⟩ =
      [Action.emit 1 (OutEvent.errorEvent "Invalid message data")] ∧
    sendGroupMessage (⟨[], false, false, false, false, false, false, 1⟩ : Db)
      (⟨1, JVal.num 7, "alice"⟩ : Socket) ([] : Registry)
      ⟨JVal.str "", JVal.str "hi"⟩ =
      [Action.emit 1 (OutEvent.errorEvent "Invalid message data")] :=
  C10_falsy_ids_rejected _ _ _ _ _ (by decide) (by decide)

end Chat
